import Mathlib

/-!
A shallow embedding of the payments-engine core (`src/client.rs`,
`src/transaction.rs`, `src/ledger.rs`).

Modelling choices:
* Rust `f64` amounts are modelled as `ℚ`; `f64::is_sign_negative` is modelled
  as `< 0` and `f64::abs` as rational absolute value / negation on the
  negative branch.
* Rust `u16` / `u32` identifiers are modelled as `Nat` (no arithmetic is
  performed on them).
* `HashMap` is modelled as a duplicate-free association list: `insertM`
  replaces any previous binding of the key, `lookupM` finds the current one.
* Fallible Rust functions returning `Result` become `Except`; the in-place
  `&mut self` mutation of `Ledger::apply_transaction` becomes explicit state
  passing, returning the ledger as mutated up to the return point together
  with `Option AppErr` (`none` = `Ok(())`).
* The `Option::unwrap()` calls on `tx.amount()` in the deposit and withdrawal
  arms can panic; that panic is modelled by the dedicated error value
  `AppErr.unwrapNone`, distinct from every `LedgerError` and `ClientError`.
-/

/-- Model of `TransactionType` from `src/transaction.rs`. -/
inductive TransactionType where
  | deposit
  | withdrawal
  | dispute
  | resolve
  | chargeback
deriving DecidableEq, Repr

/-- Model of `Transaction` from `src/transaction.rs`: an enum-tagged record with an
optional amount. -/
structure Transaction where
  tx_type : TransactionType
  client : Nat
  amount : Option ℚ
  tx : Nat
deriving DecidableEq, Repr

/-- Model of `ClientError` from `src/client.rs`. -/
inductive ClientError where
  | InsufficientFunds
  | IncorrectSign
deriving DecidableEq, Repr

/-- Model of `Client` from `src/client.rs`: one account's balance state. -/
structure Client where
  id : Nat
  available : ℚ
  held : ℚ
  locked : Bool
deriving DecidableEq, Repr

/-- Model of `Client::from_id`: fresh account with zero balances, unlocked. -/
def Client.from_id (id : Nat) : Client :=
  { id := id, available := 0, held := 0, locked := false }

/-- Model of `Client::deposit`. A negative amount acts as a withdrawal of `|amount|`
and fails with `InsufficientFunds` when `|amount| > available`. -/
def Client.deposit (c : Client) (amount : ℚ) : Except ClientError Client :=
  if amount < 0 ∧ -amount > c.available then .error .InsufficientFunds
  else .ok { c with available := c.available + amount }

/-- Model of `Client::hold`. A negative amount releases `|amount|` held funds back to
available; on success the uniform formula `held += amount; available -= amount`
is applied. -/
def Client.hold (c : Client) (amount : ℚ) : Except ClientError Client :=
  if amount < 0 then
    if -amount > c.held then .error .InsufficientFunds
    else .ok { c with held := c.held + amount, available := c.available - amount }
  else
    if amount > c.available then .error .InsufficientFunds
    else .ok { c with held := c.held + amount, available := c.available - amount }

/-- Model of `Client::chargeback`. Rejects negative amounts with `IncorrectSign`,
keeps the source's redundant second `abs` bound check, then removes the
amount from held and locks the account. -/
def Client.chargeback (c : Client) (amount : ℚ) : Except ClientError Client :=
  if amount < 0 then .error .IncorrectSign
  else if amount > c.held then .error .InsufficientFunds
  else if amount > c.held then .error .InsufficientFunds
  else .ok { c with held := c.held - amount, locked := true }

/-- Model of `Client::total`: derived balance `available + held`. -/
def Client.total (c : Client) : ℚ :=
  c.available + c.held

/-- Model of `LedgerError` from `src/ledger.rs`
(the spec calls these `LookupError::MissingClient`, `::MissingTransaction`
and `::MissingAmount`). -/
inductive LedgerError where
  | MissingClient (id : Nat)
  | MissingTransaction (id : Nat)
  | MissingTransactionAmount (id : Nat)
deriving DecidableEq, Repr

/-- The error type of `Ledger::apply_transaction`
(`Box<dyn Error>` holding either error enum), extended with `unwrapNone`
for the panic of `Option::unwrap()` on an absent amount. -/
inductive AppErr where
  | ledgerErr (e : LedgerError)
  | clientErr (e : ClientError)
  | unwrapNone
deriving DecidableEq, Repr

/-- Model of `HashMap::get` on the association-list representation. -/
def lookupM {α : Type} : List (Nat × α) → Nat → Option α
  | [], _ => none
  | p :: ps, k => if p.1 = k then some p.2 else lookupM ps k

/-- Drop every binding of key `k` (helper for `insertM`). -/
def removeKey {α : Type} : List (Nat × α) → Nat → List (Nat × α)
  | [], _ => []
  | p :: ps, k => if p.1 = k then removeKey ps k else p :: removeKey ps k

/-- Model of `HashMap::insert` on the association-list representation: the new binding replaces
any previous binding of the same key. -/
def insertM {α : Type} (m : List (Nat × α)) (k : Nat) (v : α) : List (Nat × α) :=
  (k, v) :: removeKey m k

/-- Model of `Ledger` from `src/ledger.rs`: the transaction history and the accounts. -/
structure Ledger where
  transaction_table : List (Nat × Transaction)
  client_table : List (Nat × Client)
deriving DecidableEq, Repr

/-- Model of `Default::default()` for `Ledger`: both tables empty. -/
def Ledger.empty : Ledger :=
  { transaction_table := [], client_table := [] }

/-- Model of `Ledger::init_client`: create a default client if one does not yet exist. -/
def Ledger.init_client (l : Ledger) (id : Nat) : Ledger :=
  if (lookupM l.client_table id).isSome then l
  else { l with client_table := insertM l.client_table id (Client.from_id id) }

/-- Model of `Ledger::get_client`. -/
def Ledger.get_client (l : Ledger) (id : Nat) : Except LedgerError Client :=
  match lookupM l.client_table id with
  | some c => .ok c
  | none => .error (.MissingClient id)

/-- Model of `Ledger::get_transaction`. -/
def Ledger.get_transaction (l : Ledger) (id : Nat) : Except LedgerError Transaction :=
  match lookupM l.transaction_table id with
  | some c => .ok c
  | none => .error (.MissingTransaction id)

/-- Model of `Ledger::get_tx_amount_type`. -/
def Ledger.get_tx_amount_type (l : Ledger) (id : Nat) :
    Except LedgerError (ℚ × TransactionType) :=
  match l.get_transaction id with
  | .error e => .error e
  | .ok t =>
    match t.amount with
    | some a => .ok (a, t.tx_type)
    | none => .error (.MissingTransactionAmount id)

/-- The `deposit` arm of `Ledger::apply_transaction`: init the client, look it
up, unwrap the amount (panic when absent), deposit, then store the record. -/
def Ledger.apply_deposit (l : Ledger) (t : Transaction) : Ledger × Option AppErr :=
  let l1 := l.init_client t.client
  match l1.get_client t.client with
  | .error e => (l1, some (.ledgerErr e))
  | .ok c =>
    match t.amount with
    | none => (l1, some .unwrapNone)
    | some a =>
      match c.deposit a with
      | .error e => (l1, some (.clientErr e))
      | .ok c1 =>
        let l2 := { l1 with client_table := insertM l1.client_table t.client c1 }
        ({ l2 with transaction_table := insertM l2.transaction_table t.tx t }, none)

/-- The `withdrawal` arm of `Ledger::apply_transaction`: look up the client
(no creation), unwrap the amount, deposit its negation, store the record. -/
def Ledger.apply_withdrawal (l : Ledger) (t : Transaction) : Ledger × Option AppErr :=
  match l.get_client t.client with
  | .error e => (l, some (.ledgerErr e))
  | .ok c =>
    match t.amount with
    | none => (l, some .unwrapNone)
    | some a =>
      match c.deposit (-a) with
      | .error e => (l, some (.clientErr e))
      | .ok c1 =>
        let l2 := { l with client_table := insertM l.client_table t.client c1 }
        ({ l2 with transaction_table := insertM l2.transaction_table t.tx t }, none)

/-- The `dispute` arm of `Ledger::apply_transaction`: a missing reference is a
silent no-op; a referenced deposit's amount is held on the incoming record's
client. -/
def Ledger.apply_dispute (l : Ledger) (t : Transaction) : Ledger × Option AppErr :=
  match lookupM l.transaction_table t.tx with
  | some ref_tx =>
    if ref_tx.tx_type = .deposit then
      match ref_tx.amount with
      | some a =>
        match l.get_client t.client with
        | .error e => (l, some (.ledgerErr e))
        | .ok c =>
          match c.hold a with
          | .error e => (l, some (.clientErr e))
          | .ok c1 => ({ l with client_table := insertM l.client_table t.client c1 }, none)
      | none => (l, some (.ledgerErr (.MissingTransactionAmount t.tx)))
    else (l, none)
  | none => (l, none)

/-- The `resolve` arm of `Ledger::apply_transaction`: a missing reference is a
hard error; a referenced deposit's amount is released on the incoming record's
client. -/
def Ledger.apply_resolve (l : Ledger) (t : Transaction) : Ledger × Option AppErr :=
  match l.get_tx_amount_type t.tx with
  | .error e => (l, some (.ledgerErr e))
  | .ok (a, ty) =>
    if ty = .deposit then
      match l.get_client t.client with
      | .error e => (l, some (.ledgerErr e))
      | .ok c =>
        match c.hold (-a) with
        | .error e => (l, some (.clientErr e))
        | .ok c1 => ({ l with client_table := insertM l.client_table t.client c1 }, none)
    else (l, none)

/-- The `chargeback` arm of `Ledger::apply_transaction`: a missing reference is
a hard error; a referenced deposit's amount is charged back on the incoming
record's client. -/
def Ledger.apply_chargeback (l : Ledger) (t : Transaction) : Ledger × Option AppErr :=
  match l.get_tx_amount_type t.tx with
  | .error e => (l, some (.ledgerErr e))
  | .ok (a, ty) =>
    if ty = .deposit then
      match l.get_client t.client with
      | .error e => (l, some (.ledgerErr e))
      | .ok c =>
        match c.chargeback a with
        | .error e => (l, some (.clientErr e))
        | .ok c1 => ({ l with client_table := insertM l.client_table t.client c1 }, none)
    else (l, none)

/-- Model of `Ledger::apply_transaction`: dispatch on the record's kind. -/
def Ledger.apply_transaction (l : Ledger) (t : Transaction) : Ledger × Option AppErr :=
  match t.tx_type with
  | .deposit => l.apply_deposit t
  | .withdrawal => l.apply_withdrawal t
  | .dispute => l.apply_dispute t
  | .resolve => l.apply_resolve t
  | .chargeback => l.apply_chargeback t

/-- The driver loop of `src/main.rs`: apply records in order, aborting the run
at the first error (`ledger.apply_transaction(&tx.unwrap()).unwrap()`). -/
def Ledger.apply_all (l : Ledger) : List Transaction → Except AppErr Ledger
  | [] => .ok l
  | t :: ts =>
    match l.apply_transaction t with
    | (l1, none) => l1.apply_all ts
    | (_, some e) => .error e

deriving instance DecidableEq for Except

/-- Success-or-error outcome of a `Client` operation with only the `available`
and `held` balances of the success state retained (used to compare runs that
differ only in the `locked` flag). -/
def exceptBalances (r : Except ClientError Client) : Except ClientError (ℚ × ℚ) :=
  r.map (fun c => (c.available, c.held))

/-- History invariant of the spec (§3, Ledger): every stored record is a
deposit or a withdrawal and carries a present amount. -/
def histInv (l : Ledger) : Prop :=
  ∀ id t, lookupM l.transaction_table id = some t →
    (t.tx_type = .deposit ∨ t.tx_type = .withdrawal) ∧ t.amount.isSome

/-- Every deposit record stored in the history carries a non-negative amount. -/
def depositAmountsNonneg (l : Ledger) : Prop :=
  ∀ id t, lookupM l.transaction_table id = some t → t.tx_type = .deposit →
    ∀ a, t.amount = some a → 0 ≤ a

/-- Input discipline: a deposit record carries a non-negative amount. -/
def depositNonneg (t : Transaction) : Prop :=
  t.tx_type = .deposit → ∀ a, t.amount = some a → 0 ≤ a

/-- deposit(client 1, tx 1, amount 10). -/
def d1 : Transaction := ⟨.deposit, 1, some 10, 1⟩

/-- deposit(client 1, tx 2, amount 5). -/
def d2 : Transaction := ⟨.deposit, 1, some 5, 2⟩

/-- withdrawal(client 1, tx 3, amount 1). -/
def w3 : Transaction := ⟨.withdrawal, 1, some 1, 3⟩

/-- dispute(client 1, tx 2). -/
def dsp2 : Transaction := ⟨.dispute, 1, none, 2⟩

/-- resolve(client 1, tx 2). -/
def rsv2 : Transaction := ⟨.resolve, 1, none, 2⟩

/-- chargeback(client 1, tx 2). -/
def cb2 : Transaction := ⟨.chargeback, 1, none, 2⟩

/-- deposit(client 2, tx 4, amount 10). -/
def d4 : Transaction := ⟨.deposit, 2, some 10, 4⟩

/-- withdrawal(client 2, tx 5, amount 5). -/
def w5 : Transaction := ⟨.withdrawal, 2, some 5, 5⟩

/-- deposit(client 2, tx 6, amount 5). -/
def d6 : Transaction := ⟨.deposit, 2, some 5, 6⟩

/-- dispute(client 2, tx 6). -/
def dsp6 : Transaction := ⟨.dispute, 2, none, 6⟩

/-- The reference scenario of §8 of the spec (also
`test_apply_transactions` in `src/ledger.rs`). -/
def c1txs : List Transaction :=
  [d1, d2, w3, dsp2, rsv2, w3, dsp2, cb2, d4, w5, d6, dsp6]

/-- A run in which a negative-amount deposit is accepted and later charged
back. -/
def c2txs : List Transaction :=
  [⟨.deposit, 1, some 10, 1⟩, ⟨.deposit, 1, some (-5), 2⟩, ⟨.chargeback, 1, none, 2⟩]

/-- A ledger in which client 2 owns the only historical deposit (tx 2,
amount 7) while client 1 also has an account. -/
def c3ledger : Ledger :=
  { transaction_table := [(2, ⟨.deposit, 2, some 7, 2⟩)],
    client_table := [(1, ⟨1, 10, 0, false⟩), (2, ⟨2, 7, 0, false⟩)] }

/-- A dispute that names client 1 but references client 2's deposit. -/
def c3tx : Transaction := ⟨.dispute, 1, none, 2⟩

/-- A one-account ledger with one historical deposit. -/
def c4ledger : Ledger :=
  { transaction_table := [(1, ⟨.deposit, 1, some 10, 1⟩)],
    client_table := [(1, ⟨1, 10, 0, false⟩)] }

/-- An account with negative available funds (not reachable from the empty
ledger, but a legal `Ledger` value). -/
def c6ledger : Ledger :=
  { transaction_table := [], client_table := [(1, ⟨1, -5, 0, false⟩)] }

/-- A withdrawal whose amount `-1` exceeds the available funds `-5`. -/
def c6tx : Transaction := ⟨.withdrawal, 1, some (-1), 9⟩

/-- A one-account ledger used to exercise withdrawal errors. -/
def c6ledger2 : Ledger :=
  { transaction_table := [], client_table := [(1, ⟨1, 5, 0, false⟩)] }

/-- The ledger produced by a single 10-unit deposit by client 1. -/
def c10ledger : Ledger :=
  { transaction_table := [(1, ⟨.deposit, 1, some 10, 1⟩)],
    client_table := [(1, ⟨1, 10, 0, false⟩)] }

theorem lookupM_insertM_self {α : Type} (m : List (Nat × α)) (k : Nat) (v : α) :
    lookupM (insertM m k v) k = some v := by
  simp [lookupM, insertM]

theorem lookupM_removeKey_ne {α : Type} (m : List (Nat × α)) (k k' : Nat)
    (h : k' ≠ k) : lookupM (removeKey m k) k' = lookupM m k' := by
  induction m with
  | nil => rfl
  | cons p ps ih =>
    by_cases hp : p.1 = k
    · have hq : p.1 ≠ k' := by rw [hp]; exact Ne.symm h
      simp [removeKey, lookupM, hp, hq, ih, h, Ne.symm h]
    · by_cases hq : p.1 = k'
      · simp [removeKey, lookupM, hp, hq, h, Ne.symm h]
      · simp [removeKey, lookupM, hp, hq, ih, h, Ne.symm h]

theorem lookupM_insertM_ne {α : Type} (m : List (Nat × α)) (k k' : Nat) (v : α)
    (h : k' ≠ k) : lookupM (insertM m k v) k' = lookupM m k' := by
  simp [lookupM, insertM, Ne.symm h, lookupM_removeKey_ne m k k' h]

theorem lookupM_insertM_cases {α : Type} (m : List (Nat × α)) (k id : Nat) (v w : α)
    (h : lookupM (insertM m k v) id = some w) :
    (id = k ∧ w = v) ∨ lookupM m id = some w := by
  by_cases hid : id = k
  · subst hid
    rw [lookupM_insertM_self] at h
    exact Or.inl ⟨rfl, (Option.some_inj.mp h).symm⟩
  · rw [lookupM_insertM_ne m k id v hid] at h
    exact Or.inr h
theorem Client.deposit_ne_incorrectSign (c : Client) (a : ℚ) :
    c.deposit a ≠ .error .IncorrectSign := by
  unfold Client.deposit
  split <;> simp

theorem Client.hold_ne_incorrectSign (c : Client) (a : ℚ) :
    c.hold a ≠ .error .IncorrectSign := by
  unfold Client.hold
  split <;> split <;> simp

theorem Client.chargeback_nonneg_ne_incorrectSign (c : Client) (a : ℚ) (h : 0 ≤ a) :
    c.chargeback a ≠ .error .IncorrectSign := by
  unfold Client.chargeback
  rw [if_neg (not_lt.mpr h)]
  split <;> simp

theorem apply_all_cons_ok (l l1 : Ledger) (t : Transaction) (ts : List Transaction)
    (h : l.apply_transaction t = (l1, none)) : l.apply_all (t :: ts) = l1.apply_all ts := by
  simp [Ledger.apply_all, h]

/-- Claim C7 (theorem): whenever `Client::hold` succeeds it applies the one
uniform formula `held += amount; available -= amount`, leaving `total`
unchanged; for non-negative amounts it fails with `InsufficientFunds` exactly
when the amount exceeds available, and for negative amounts exactly when its
magnitude exceeds held. -/
theorem c7_hold_uniform_formula (c : Client) (amount : ℚ) :
    (∀ c1, c.hold amount = .ok c1 →
      c1.held = c.held + amount ∧ c1.available = c.available - amount ∧ c1.total = c.total)
    ∧ (0 ≤ amount → (c.hold amount = .error .InsufficientFunds ↔ c.available < amount))
    ∧ (amount < 0 → (c.hold amount = .error .InsufficientFunds ↔ c.held < -amount)) := by
  refine ⟨?_, ?_, ?_⟩
  · intro c1 h1
    unfold Client.hold at h1
    split at h1
    · split at h1
      · exact Except.noConfusion h1
      · injection h1 with h2
        subst h2
        exact ⟨rfl, rfl, by simp [Client.total]⟩
    · split at h1
      · exact Except.noConfusion h1
      · injection h1 with h2
        subst h2
        exact ⟨rfl, rfl, by simp [Client.total]⟩
  · intro h0
    unfold Client.hold
    rw [if_neg (not_lt.mpr h0)]
    by_cases hgt : c.available < amount
    · rw [if_pos hgt]; simp [hgt]
    · rw [if_neg hgt]; simp [hgt]
  · intro hneg
    unfold Client.hold
    rw [if_pos hneg]
    by_cases hgt : c.held < -amount
    · rw [if_pos hgt]; simp [hgt]
    · rw [if_neg hgt]; simp [hgt]

/-- Claim C7 (witness): holding 4 on the account `⟨1, 10, 2, false⟩` yields
`⟨1, 6, 6, false⟩`, whose total equals the original total; the insufficiency
criterion instantiates to `10 < 4`. -/
theorem c7_hold_uniform_formula_witness :
    (Client.mk 1 6 6 false).total = (Client.mk 1 10 2 false).total
    ∧ ((Client.mk 1 10 2 false).hold 4 = .error .InsufficientFunds ↔ (10 : ℚ) < 4) := by
  have h := c7_hold_uniform_formula (Client.mk 1 10 2 false) 4
  refine ⟨(h.1 (Client.mk 1 6 6 false) ?_).2.2, h.2.1 (by norm_num)⟩
  norm_num [Client.hold]

/-- Claim C9: the `locked` flag never influences balance operations: flipping
it changes neither the success-or-error outcome nor the resulting `available`
and `held` of `Client::deposit`, `Client::hold` and `Client::chargeback`. -/
theorem c9_locked_noninterference (c : Client) (b : Bool) (amount : ℚ) :
    exceptBalances (Client.deposit { c with locked := b } amount)
        = exceptBalances (c.deposit amount)
    ∧ exceptBalances (Client.hold { c with locked := b } amount)
        = exceptBalances (c.hold amount)
    ∧ exceptBalances (Client.chargeback { c with locked := b } amount)
        = exceptBalances (c.chargeback amount) := by
  refine ⟨?_, ?_, ?_⟩
  · simp only [Client.deposit, exceptBalances]
    split <;> simp [Except.map]
  · simp only [Client.hold, exceptBalances]
    split <;> split <;> simp [Except.map]
  · simp only [Client.chargeback, exceptBalances]
/-- Claim C1: applying the reference scenario's twelve records in order to the
empty ledger succeeds for every record and yields exactly two accounts:
client 1 with available 8, held 0, locked, and client 2 with available 5,
held 5, unlocked. -/
theorem c1_reference_scenario :
    (Ledger.apply_all Ledger.empty c1txs).map Ledger.client_table
      = .ok [(2, ⟨2, 5, 5, false⟩), (1, ⟨1, 8, 0, true⟩)] := by
  have h1 : (Ledger.empty : Ledger).apply_transaction d1 = ((⟨[(1, d1)], [(1, ⟨1, 10, 0, false⟩)]⟩ : Ledger), none) := by
    norm_num [Ledger.apply_transaction, Ledger.apply_deposit, Ledger.apply_withdrawal,
      Ledger.apply_dispute, Ledger.apply_resolve, Ledger.apply_chargeback, Ledger.empty,
      Ledger.init_client, Ledger.get_client, Ledger.get_transaction, Ledger.get_tx_amount_type,
      Client.from_id, Client.deposit, Client.hold, Client.chargeback, lookupM, insertM,
      removeKey, d1, d2, w3, dsp2, rsv2, cb2, d4, w5, d6, dsp6]
  have h2 : (⟨[(1, d1)], [(1, ⟨1, 10, 0, false⟩)]⟩ : Ledger).apply_transaction d2 = ((⟨[(2, d2), (1, d1)], [(1, ⟨1, 15, 0, false⟩)]⟩ : Ledger), none) := by
    norm_num [Ledger.apply_transaction, Ledger.apply_deposit, Ledger.apply_withdrawal,
      Ledger.apply_dispute, Ledger.apply_resolve, Ledger.apply_chargeback, Ledger.empty,
      Ledger.init_client, Ledger.get_client, Ledger.get_transaction, Ledger.get_tx_amount_type,
      Client.from_id, Client.deposit, Client.hold, Client.chargeback, lookupM, insertM,
      removeKey, d1, d2, w3, dsp2, rsv2, cb2, d4, w5, d6, dsp6]
  have h3 : (⟨[(2, d2), (1, d1)], [(1, ⟨1, 15, 0, false⟩)]⟩ : Ledger).apply_transaction w3 = ((⟨[(3, w3), (2, d2), (1, d1)], [(1, ⟨1, 14, 0, false⟩)]⟩ : Ledger), none) := by
    norm_num [Ledger.apply_transaction, Ledger.apply_deposit, Ledger.apply_withdrawal,
      Ledger.apply_dispute, Ledger.apply_resolve, Ledger.apply_chargeback, Ledger.empty,
      Ledger.init_client, Ledger.get_client, Ledger.get_transaction, Ledger.get_tx_amount_type,
      Client.from_id, Client.deposit, Client.hold, Client.chargeback, lookupM, insertM,
      removeKey, d1, d2, w3, dsp2, rsv2, cb2, d4, w5, d6, dsp6]
  have h4 : (⟨[(3, w3), (2, d2), (1, d1)], [(1, ⟨1, 14, 0, false⟩)]⟩ : Ledger).apply_transaction dsp2 = ((⟨[(3, w3), (2, d2), (1, d1)], [(1, ⟨1, 9, 5, false⟩)]⟩ : Ledger), none) := by
    norm_num [Ledger.apply_transaction, Ledger.apply_deposit, Ledger.apply_withdrawal,
      Ledger.apply_dispute, Ledger.apply_resolve, Ledger.apply_chargeback, Ledger.empty,
      Ledger.init_client, Ledger.get_client, Ledger.get_transaction, Ledger.get_tx_amount_type,
      Client.from_id, Client.deposit, Client.hold, Client.chargeback, lookupM, insertM,
      removeKey, d1, d2, w3, dsp2, rsv2, cb2, d4, w5, d6, dsp6]
  have h5 : (⟨[(3, w3), (2, d2), (1, d1)], [(1, ⟨1, 9, 5, false⟩)]⟩ : Ledger).apply_transaction rsv2 = ((⟨[(3, w3), (2, d2), (1, d1)], [(1, ⟨1, 14, 0, false⟩)]⟩ : Ledger), none) := by
    norm_num [Ledger.apply_transaction, Ledger.apply_deposit, Ledger.apply_withdrawal,
      Ledger.apply_dispute, Ledger.apply_resolve, Ledger.apply_chargeback, Ledger.empty,
      Ledger.init_client, Ledger.get_client, Ledger.get_transaction, Ledger.get_tx_amount_type,
      Client.from_id, Client.deposit, Client.hold, Client.chargeback, lookupM, insertM,
      removeKey, d1, d2, w3, dsp2, rsv2, cb2, d4, w5, d6, dsp6]
  have h6 : (⟨[(3, w3), (2, d2), (1, d1)], [(1, ⟨1, 14, 0, false⟩)]⟩ : Ledger).apply_transaction w3 = ((⟨[(3, w3), (2, d2), (1, d1)], [(1, ⟨1, 13, 0, false⟩)]⟩ : Ledger), none) := by
    norm_num [Ledger.apply_transaction, Ledger.apply_deposit, Ledger.apply_withdrawal,
      Ledger.apply_dispute, Ledger.apply_resolve, Ledger.apply_chargeback, Ledger.empty,
      Ledger.init_client, Ledger.get_client, Ledger.get_transaction, Ledger.get_tx_amount_type,
      Client.from_id, Client.deposit, Client.hold, Client.chargeback, lookupM, insertM,
      removeKey, d1, d2, w3, dsp2, rsv2, cb2, d4, w5, d6, dsp6]
  have h7 : (⟨[(3, w3), (2, d2), (1, d1)], [(1, ⟨1, 13, 0, false⟩)]⟩ : Ledger).apply_transaction dsp2 = ((⟨[(3, w3), (2, d2), (1, d1)], [(1, ⟨1, 8, 5, false⟩)]⟩ : Ledger), none) := by
    norm_num [Ledger.apply_transaction, Ledger.apply_deposit, Ledger.apply_withdrawal,
      Ledger.apply_dispute, Ledger.apply_resolve, Ledger.apply_chargeback, Ledger.empty,
      Ledger.init_client, Ledger.get_client, Ledger.get_transaction, Ledger.get_tx_amount_type,
      Client.from_id, Client.deposit, Client.hold, Client.chargeback, lookupM, insertM,
      removeKey, d1, d2, w3, dsp2, rsv2, cb2, d4, w5, d6, dsp6]
  have h8 : (⟨[(3, w3), (2, d2), (1, d1)], [(1, ⟨1, 8, 5, false⟩)]⟩ : Ledger).apply_transaction cb2 = ((⟨[(3, w3), (2, d2), (1, d1)], [(1, ⟨1, 8, 0, true⟩)]⟩ : Ledger), none) := by
    norm_num [Ledger.apply_transaction, Ledger.apply_deposit, Ledger.apply_withdrawal,
      Ledger.apply_dispute, Ledger.apply_resolve, Ledger.apply_chargeback, Ledger.empty,
      Ledger.init_client, Ledger.get_client, Ledger.get_transaction, Ledger.get_tx_amount_type,
      Client.from_id, Client.deposit, Client.hold, Client.chargeback, lookupM, insertM,
      removeKey, d1, d2, w3, dsp2, rsv2, cb2, d4, w5, d6, dsp6]
  have h9 : (⟨[(3, w3), (2, d2), (1, d1)], [(1, ⟨1, 8, 0, true⟩)]⟩ : Ledger).apply_transaction d4 = ((⟨[(4, d4), (3, w3), (2, d2), (1, d1)], [(2, ⟨2, 10, 0, false⟩), (1, ⟨1, 8, 0, true⟩)]⟩ : Ledger), none) := by
    norm_num [Ledger.apply_transaction, Ledger.apply_deposit, Ledger.apply_withdrawal,
      Ledger.apply_dispute, Ledger.apply_resolve, Ledger.apply_chargeback, Ledger.empty,
      Ledger.init_client, Ledger.get_client, Ledger.get_transaction, Ledger.get_tx_amount_type,
      Client.from_id, Client.deposit, Client.hold, Client.chargeback, lookupM, insertM,
      removeKey, d1, d2, w3, dsp2, rsv2, cb2, d4, w5, d6, dsp6]
  have h10 : (⟨[(4, d4), (3, w3), (2, d2), (1, d1)], [(2, ⟨2, 10, 0, false⟩), (1, ⟨1, 8, 0, true⟩)]⟩ : Ledger).apply_transaction w5 = ((⟨[(5, w5), (4, d4), (3, w3), (2, d2), (1, d1)], [(2, ⟨2, 5, 0, false⟩), (1, ⟨1, 8, 0, true⟩)]⟩ : Ledger), none) := by
    norm_num [Ledger.apply_transaction, Ledger.apply_deposit, Ledger.apply_withdrawal,
      Ledger.apply_dispute, Ledger.apply_resolve, Ledger.apply_chargeback, Ledger.empty,
      Ledger.init_client, Ledger.get_client, Ledger.get_transaction, Ledger.get_tx_amount_type,
      Client.from_id, Client.deposit, Client.hold, Client.chargeback, lookupM, insertM,
      removeKey, d1, d2, w3, dsp2, rsv2, cb2, d4, w5, d6, dsp6]
  have h11 : (⟨[(5, w5), (4, d4), (3, w3), (2, d2), (1, d1)], [(2, ⟨2, 5, 0, false⟩), (1, ⟨1, 8, 0, true⟩)]⟩ : Ledger).apply_transaction d6 = ((⟨[(6, d6), (5, w5), (4, d4), (3, w3), (2, d2), (1, d1)], [(2, ⟨2, 10, 0, false⟩), (1, ⟨1, 8, 0, true⟩)]⟩ : Ledger), none) := by
    norm_num [Ledger.apply_transaction, Ledger.apply_deposit, Ledger.apply_withdrawal,
      Ledger.apply_dispute, Ledger.apply_resolve, Ledger.apply_chargeback, Ledger.empty,
      Ledger.init_client, Ledger.get_client, Ledger.get_transaction, Ledger.get_tx_amount_type,
      Client.from_id, Client.deposit, Client.hold, Client.chargeback, lookupM, insertM,
      removeKey, d1, d2, w3, dsp2, rsv2, cb2, d4, w5, d6, dsp6]
  have h12 : (⟨[(6, d6), (5, w5), (4, d4), (3, w3), (2, d2), (1, d1)], [(2, ⟨2, 10, 0, false⟩), (1, ⟨1, 8, 0, true⟩)]⟩ : Ledger).apply_transaction dsp6 = ((⟨[(6, d6), (5, w5), (4, d4), (3, w3), (2, d2), (1, d1)], [(2, ⟨2, 5, 5, false⟩), (1, ⟨1, 8, 0, true⟩)]⟩ : Ledger), none) := by
    norm_num [Ledger.apply_transaction, Ledger.apply_deposit, Ledger.apply_withdrawal,
      Ledger.apply_dispute, Ledger.apply_resolve, Ledger.apply_chargeback, Ledger.empty,
      Ledger.init_client, Ledger.get_client, Ledger.get_transaction, Ledger.get_tx_amount_type,
      Client.from_id, Client.deposit, Client.hold, Client.chargeback, lookupM, insertM,
      removeKey, d1, d2, w3, dsp2, rsv2, cb2, d4, w5, d6, dsp6]
  rw [show c1txs = [d1, d2, w3, dsp2, rsv2, w3, dsp2, cb2, d4, w5, d6, dsp6] from rfl,
    apply_all_cons_ok _ _ _ _ h1, apply_all_cons_ok _ _ _ _ h2, apply_all_cons_ok _ _ _ _ h3, apply_all_cons_ok _ _ _ _ h4, apply_all_cons_ok _ _ _ _ h5, apply_all_cons_ok _ _ _ _ h6, apply_all_cons_ok _ _ _ _ h7, apply_all_cons_ok _ _ _ _ h8, apply_all_cons_ok _ _ _ _ h9, apply_all_cons_ok _ _ _ _ h10, apply_all_cons_ok _ _ _ _ h11, apply_all_cons_ok _ _ _ _ h12]
  rfl

/-- Claim C4 (theorem): a dispute whose referenced tx id is absent from the
history is a silent no-op: `apply_transaction` succeeds and returns the
ledger completely unchanged. -/
theorem c4_dispute_missing_tx_noop (l : Ledger) (t : Transaction)
    (ht : t.tx_type = .dispute) (hh : lookupM l.transaction_table t.tx = none) :
    l.apply_transaction t = (l, none) := by
  unfold Ledger.apply_transaction Ledger.apply_dispute
  rw [ht, hh]

/-- Claim C4 (witness): disputing the unknown tx id 99 on a concrete one-account
ledger returns that ledger unchanged with no error. -/
theorem c4_dispute_missing_tx_noop_witness :
    c4ledger.apply_transaction ⟨.dispute, 1, none, 99⟩ = (c4ledger, none) := by
  have h := c4_dispute_missing_tx_noop c4ledger ⟨.dispute, 1, none, 99⟩ rfl
  exact h (by norm_num [c4ledger, lookupM])

/-- Claim C5 (theorem): a resolve or chargeback whose referenced tx id is
absent from the history raises `MissingTransaction` (and leaves the ledger
unchanged), unlike the silently succeeding dispute. -/
theorem c5_resolve_chargeback_missing_tx_error (l : Ledger) (t : Transaction)
    (ht : t.tx_type = .resolve ∨ t.tx_type = .chargeback)
    (hh : lookupM l.transaction_table t.tx = none) :
    l.apply_transaction t = (l, some (.ledgerErr (.MissingTransaction t.tx))) := by
  rcases ht with ht | ht <;>
  · unfold Ledger.apply_transaction Ledger.apply_resolve Ledger.apply_chargeback
      Ledger.get_tx_amount_type Ledger.get_transaction
    rw [ht, hh]

/-- Claim C5 (witness): resolving the unknown tx id 7 on the empty ledger
raises `MissingTransaction 7`. -/
theorem c5_resolve_chargeback_missing_tx_error_witness :
    Ledger.empty.apply_transaction ⟨.resolve, 1, none, 7⟩
      = (Ledger.empty, some (.ledgerErr (.MissingTransaction 7))) := by
  have h := c5_resolve_chargeback_missing_tx_error Ledger.empty ⟨.resolve, 1, none, 7⟩
  exact h (Or.inl rfl) rfl

/-- Claim C6 (counterexample): on the legal ledger state `c6ledger` whose
account 1 has available `-5`, the withdrawal `c6tx` of amount `-1` exceeds the
available funds (`-5 < -1`) yet `apply_transaction` succeeds with no error
(and in particular does not raise `InsufficientFunds`), refuting the claim as
stated over every ledger state. -/
theorem c6_withdrawal_insufficient_cex :
    lookupM c6ledger.client_table c6tx.client = some ⟨1, -5, 0, false⟩
    ∧ ((-5 : ℚ) < -1)
    ∧ (c6ledger.apply_transaction c6tx).2 = none := by
  refine ⟨by norm_num [c6ledger, c6tx, lookupM], by norm_num, ?_⟩
  norm_num [Ledger.apply_transaction, Ledger.apply_deposit, Ledger.apply_withdrawal,
      Ledger.apply_dispute, Ledger.apply_resolve, Ledger.apply_chargeback, Ledger.empty,
      Ledger.init_client, Ledger.get_client, Ledger.get_transaction, Ledger.get_tx_amount_type,
      Client.from_id, Client.deposit, Client.hold, Client.chargeback, lookupM, insertM,
      removeKey]
  norm_num [c6ledger, c6tx, lookupM]

/-- Claim C6 (theorem, amended): for an account with non-negative available
funds, a withdrawal whose amount exceeds the available funds raises
`InsufficientFunds` and leaves the ledger (hence the account) unchanged. -/
theorem c6_withdrawal_insufficient_amended (l : Ledger) (t : Transaction)
    (c : Client) (a : ℚ)
    (ht : t.tx_type = .withdrawal) (hc : lookupM l.client_table t.client = some c)
    (ha : t.amount = some a) (h0 : 0 ≤ c.available) (hgt : c.available < a) :
    l.apply_transaction t = (l, some (.clientErr .InsufficientFunds)) := by
  have hdep : c.deposit (-a) = .error .InsufficientFunds := by
    unfold Client.deposit
    exact if_pos ⟨by linarith, by simpa using hgt⟩
  unfold Ledger.apply_transaction Ledger.apply_withdrawal Ledger.get_client
  rw [ht]
  simp [hc, ha, hdep]

/-- Claim C6 (witness): withdrawing 10 from the concrete account with
available 5 raises `InsufficientFunds` and leaves the ledger unchanged. -/
theorem c6_withdrawal_insufficient_amended_witness :
    c6ledger2.apply_transaction ⟨.withdrawal, 1, some 10, 3⟩
      = (c6ledger2, some (.clientErr .InsufficientFunds)) := by
  have h := c6_withdrawal_insufficient_amended c6ledger2 ⟨.withdrawal, 1, some 10, 3⟩
    ⟨1, 5, 0, false⟩ 10 rfl
  exact h (by norm_num [c6ledger2, lookupM]) rfl (by norm_num) (by norm_num)

theorem lookupM_init_client_self (l : Ledger) (id : Nat) :
    ∃ c, lookupM (l.init_client id).client_table id = some c := by
  unfold Ledger.init_client
  by_cases h : (lookupM l.client_table id).isSome
  · rw [if_pos h]
    exact Option.isSome_iff_exists.mp h
  · rw [if_neg h]
    exact ⟨Client.from_id id, lookupM_insertM_self _ _ _⟩

/-- Claim C8 (counterexample): an amountless withdrawal on the empty ledger
does not reach the amount unwrap at all: `get_client` fails first, so
`apply_transaction` returns `MissingClient 1` instead of panicking, refuting
the claim's universal "for every deposit or withdrawal record whose amount
field is absent, the unwrap of the amount panics". -/
theorem c8_amountless_unwrap_cex :
    Ledger.empty.apply_transaction ⟨.withdrawal, 1, none, 1⟩
      = (Ledger.empty, some (.ledgerErr (.MissingClient 1))) := by
  norm_num [Ledger.apply_transaction, Ledger.apply_withdrawal, Ledger.empty,
    Ledger.get_client, lookupM]

/-- Claim C8 (theorem, amended): an amountless deposit always reaches the
amount unwrap and panics; an amountless withdrawal panics whenever the
client's account exists (otherwise `MissingClient` is returned before the
unwrap); in neither case is `MissingTransactionAmount` returned. -/
theorem c8_amountless_unwrap_panics_amended (l : Ledger) (t : Transaction)
    (ha : t.amount = none) :
    (t.tx_type = .deposit → (l.apply_transaction t).2 = some .unwrapNone)
    ∧ (t.tx_type = .withdrawal → (lookupM l.client_table t.client).isSome →
        (l.apply_transaction t).2 = some .unwrapNone) := by
  constructor
  · intro ht
    obtain ⟨c, hc⟩ := lookupM_init_client_self l t.client
    unfold Ledger.apply_transaction Ledger.apply_deposit Ledger.get_client
    rw [ht]
    simp [hc, ha]
  · intro ht hsome
    obtain ⟨c, hc⟩ := Option.isSome_iff_exists.mp hsome
    unfold Ledger.apply_transaction Ledger.apply_withdrawal Ledger.get_client
    rw [ht]
    simp [hc, ha]

/-- Claim C8 (witness): an amountless deposit on the empty ledger panics at
the unwrap, as does an amountless withdrawal on a ledger whose account 1
exists. -/
theorem c8_amountless_unwrap_panics_amended_witness :
    (Ledger.empty.apply_transaction ⟨.deposit, 1, none, 1⟩).2 = some .unwrapNone
    ∧ ((⟨[], [(1, ⟨1, 5, 0, false⟩)]⟩ : Ledger).apply_transaction
        ⟨.withdrawal, 1, none, 2⟩).2 = some .unwrapNone := by
  constructor
  · exact (c8_amountless_unwrap_panics_amended Ledger.empty ⟨.deposit, 1, none, 1⟩ rfl).1 rfl
  · exact (c8_amountless_unwrap_panics_amended _ ⟨.withdrawal, 1, none, 2⟩ rfl).2 rfl
      (by norm_num [lookupM])

/-- Claim C2 (counterexample): from the empty ledger, the run deposit(10),
deposit(-5) (accepted, since only `|amount| > available` is checked), then
chargeback of the negative deposit makes `Client::chargeback` receive the
negative historical amount `-5` and return `IncorrectSign`, so
`apply_transaction` does return the invalid-sign error in a real run. -/
theorem c2_invalid_sign_reachable_cex :
    Ledger.apply_all Ledger.empty c2txs = .error (.clientErr .IncorrectSign) := by
  have h1 : Ledger.empty.apply_transaction ⟨.deposit, 1, some 10, 1⟩
      = ((⟨[(1, ⟨.deposit, 1, some 10, 1⟩)], [(1, ⟨1, 10, 0, false⟩)]⟩ : Ledger), none) := by
    norm_num [Ledger.apply_transaction, Ledger.apply_deposit, Ledger.empty,
      Ledger.init_client, Ledger.get_client, Client.from_id, Client.deposit,
      lookupM, insertM, removeKey]
  have h2 : (⟨[(1, ⟨.deposit, 1, some 10, 1⟩)], [(1, ⟨1, 10, 0, false⟩)]⟩ : Ledger).apply_transaction
        ⟨.deposit, 1, some (-5), 2⟩
      = ((⟨[(2, ⟨.deposit, 1, some (-5), 2⟩), (1, ⟨.deposit, 1, some 10, 1⟩)],
          [(1, ⟨1, 5, 0, false⟩)]⟩ : Ledger), none) := by
    norm_num [Ledger.apply_transaction, Ledger.apply_deposit,
      Ledger.init_client, Ledger.get_client, Client.from_id, Client.deposit,
      lookupM, insertM, removeKey]
  have h3 : (⟨[(2, ⟨.deposit, 1, some (-5), 2⟩), (1, ⟨.deposit, 1, some 10, 1⟩)],
          [(1, ⟨1, 5, 0, false⟩)]⟩ : Ledger).apply_transaction ⟨.chargeback, 1, none, 2⟩
      = ((⟨[(2, ⟨.deposit, 1, some (-5), 2⟩), (1, ⟨.deposit, 1, some 10, 1⟩)],
          [(1, ⟨1, 5, 0, false⟩)]⟩ : Ledger), some (.clientErr .IncorrectSign)) := by
    norm_num [Ledger.apply_transaction, Ledger.apply_chargeback,
      Ledger.get_tx_amount_type, Ledger.get_transaction, Ledger.get_client,
      Client.chargeback, lookupM]
  rw [show c2txs = [⟨.deposit, 1, some 10, 1⟩, ⟨.deposit, 1, some (-5), 2⟩,
      ⟨.chargeback, 1, none, 2⟩] from rfl,
    apply_all_cons_ok _ _ _ _ h1, apply_all_cons_ok _ _ _ _ h2]
  simp [Ledger.apply_all, h3]

theorem init_client_transaction_table (l : Ledger) (id : Nat) :
    (l.init_client id).transaction_table = l.transaction_table := by
  unfold Ledger.init_client
  split <;> rfl

theorem apply_dispute_transaction_table (l : Ledger) (t : Transaction) :
    (l.apply_dispute t).1.transaction_table = l.transaction_table := by
  unfold Ledger.apply_dispute
  split
  · split
    · split
      · split
        · rfl
        · split <;> rfl
      · rfl
    · rfl
  · rfl

theorem apply_resolve_transaction_table (l : Ledger) (t : Transaction) :
    (l.apply_resolve t).1.transaction_table = l.transaction_table := by
  unfold Ledger.apply_resolve
  split
  · rfl
  · split
    · split
      · rfl
      · split <;> rfl
    · rfl

theorem apply_chargeback_transaction_table (l : Ledger) (t : Transaction) :
    (l.apply_chargeback t).1.transaction_table = l.transaction_table := by
  unfold Ledger.apply_chargeback
  split
  · rfl
  · split
    · split
      · rfl
      · split <;> rfl
    · rfl

theorem apply_dispute_client_table (l : Ledger) (t : Transaction) :
    (l.apply_dispute t).1.client_table = l.client_table
    ∨ ∃ c1, (l.apply_dispute t).1.client_table = insertM l.client_table t.client c1 := by
  unfold Ledger.apply_dispute
  split
  · split
    · split
      · split
        · exact Or.inl rfl
        · split
          · exact Or.inl rfl
          · exact Or.inr ⟨_, rfl⟩
      · exact Or.inl rfl
    · exact Or.inl rfl
  · exact Or.inl rfl

theorem apply_resolve_client_table (l : Ledger) (t : Transaction) :
    (l.apply_resolve t).1.client_table = l.client_table
    ∨ ∃ c1, (l.apply_resolve t).1.client_table = insertM l.client_table t.client c1 := by
  unfold Ledger.apply_resolve
  split
  · exact Or.inl rfl
  · split
    · split
      · exact Or.inl rfl
      · split
        · exact Or.inl rfl
        · exact Or.inr ⟨_, rfl⟩
    · exact Or.inl rfl

theorem apply_chargeback_client_table (l : Ledger) (t : Transaction) :
    (l.apply_chargeback t).1.client_table = l.client_table
    ∨ ∃ c1, (l.apply_chargeback t).1.client_table = insertM l.client_table t.client c1 := by
  unfold Ledger.apply_chargeback
  split
  · exact Or.inl rfl
  · split
    · split
      · exact Or.inl rfl
      · split
        · exact Or.inl rfl
        · exact Or.inr ⟨_, rfl⟩
    · exact Or.inl rfl

/-- Claim C3 (theorem): for a dispute, resolve or chargeback whose referenced
tx id is found in history as a deposit, the only account `apply_transaction`
can touch is the one keyed by the incoming record's `client` field — no check
relates it to the historical deposit's client — and, for a dispute with
sufficient available funds, exactly the historical amount is moved from
available to held on the account named by the incoming record. -/
theorem c3_dispute_targets_named_client (l : Ledger) (t h : Transaction)
    (hk : t.tx_type = .dispute ∨ t.tx_type = .resolve ∨ t.tx_type = .chargeback)
    (hh : lookupM l.transaction_table t.tx = some h)
    (hd : h.tx_type = .deposit) :
    (∀ k, k ≠ t.client →
      lookupM (l.apply_transaction t).1.client_table k = lookupM l.client_table k)
    ∧ (∀ a c, t.tx_type = .dispute → h.amount = some a →
        lookupM l.client_table t.client = some c → 0 ≤ a → a ≤ c.available →
        l.apply_transaction t =
          (Ledger.mk l.transaction_table
            (insertM l.client_table t.client
              (Client.mk c.id (c.available - a) (c.held + a) c.locked)), none)) := by
  constructor
  · intro k hk2
    rcases hk with ht | ht | ht
    · have hred : l.apply_transaction t = l.apply_dispute t := by
        unfold Ledger.apply_transaction
        rw [ht]
      rw [hred]
      rcases apply_dispute_client_table l t with he | ⟨c1, he⟩
      · rw [he]
      · rw [he, lookupM_insertM_ne _ _ _ _ hk2]
    · have hred : l.apply_transaction t = l.apply_resolve t := by
        unfold Ledger.apply_transaction
        rw [ht]
      rw [hred]
      rcases apply_resolve_client_table l t with he | ⟨c1, he⟩
      · rw [he]
      · rw [he, lookupM_insertM_ne _ _ _ _ hk2]
    · have hred : l.apply_transaction t = l.apply_chargeback t := by
        unfold Ledger.apply_transaction
        rw [ht]
      rw [hred]
      rcases apply_chargeback_client_table l t with he | ⟨c1, he⟩
      · rw [he]
      · rw [he, lookupM_insertM_ne _ _ _ _ hk2]
  · intro a c ht hA hc h0 hle
    have hred : l.apply_transaction t = l.apply_dispute t := by
      unfold Ledger.apply_transaction
      rw [ht]
    have hhold : c.hold a = .ok (Client.mk c.id (c.available - a) (c.held + a) c.locked) := by
      unfold Client.hold
      rw [if_neg (not_lt.mpr h0), if_neg (not_lt.mpr hle)]
    rw [hred]
    unfold Ledger.apply_dispute Ledger.get_client
    simp [hh, hd, hA, hc, hhold]

/-- Claim C3 (witness): in `c3ledger`, the dispute `c3tx` names client 1 but
references client 2's deposit of 7; applying it leaves client 2's account
untouched and moves 7 from client 1's available into client 1's held. -/
theorem c3_dispute_targets_named_client_witness :
    lookupM (c3ledger.apply_transaction c3tx).1.client_table 2
        = lookupM c3ledger.client_table 2
    ∧ c3ledger.apply_transaction c3tx
        = (Ledger.mk c3ledger.transaction_table
            (insertM c3ledger.client_table 1 (Client.mk 1 3 7 false)), none) := by
  have h := c3_dispute_targets_named_client c3ledger c3tx ⟨.deposit, 2, some 7, 2⟩
    (Or.inl rfl) (by norm_num [c3ledger, c3tx, lookupM]) rfl
  constructor
  · exact h.1 2 (by decide)
  · have h2 := h.2 7 ⟨1, 10, 0, false⟩ rfl rfl
      (by norm_num [c3ledger, c3tx, lookupM]) (by norm_num) (by norm_num)
    rw [h2]
    norm_num [c3tx]

theorem apply_deposit_transaction_table (l : Ledger) (t : Transaction) :
    (l.apply_deposit t).1.transaction_table = l.transaction_table
    ∨ ∃ a, t.amount = some a
        ∧ (l.apply_deposit t).1.transaction_table = insertM l.transaction_table t.tx t := by
  simp only [Ledger.apply_deposit]
  cases hg : (l.init_client t.client).get_client t.client with
  | error e => simp [hg, init_client_transaction_table]
  | ok c =>
    cases hA : t.amount with
    | none => simp [hg, hA, init_client_transaction_table]
    | some a =>
      cases hd : c.deposit a with
      | error e => simp [hg, hA, hd, init_client_transaction_table]
      | ok c1 =>
        refine Or.inr ⟨a, rfl, ?_⟩
        simp [hg, hA, hd, init_client_transaction_table]

theorem apply_withdrawal_transaction_table (l : Ledger) (t : Transaction) :
    (l.apply_withdrawal t).1.transaction_table = l.transaction_table
    ∨ ∃ a, t.amount = some a
        ∧ (l.apply_withdrawal t).1.transaction_table = insertM l.transaction_table t.tx t := by
  simp only [Ledger.apply_withdrawal]
  cases hg : l.get_client t.client with
  | error e => simp [hg]
  | ok c =>
    cases hA : t.amount with
    | none => simp [hg, hA]
    | some a =>
      cases hd : c.deposit (-a) with
      | error e => simp [hg, hA, hd]
      | ok c1 =>
        refine Or.inr ⟨a, rfl, ?_⟩
        simp [hg, hA, hd]

theorem get_tx_amount_type_ok (l : Ledger) (id : Nat) (a : ℚ) (ty : TransactionType)
    (h : l.get_tx_amount_type id = .ok (a, ty)) :
    ∃ t, lookupM l.transaction_table id = some t ∧ t.amount = some a ∧ t.tx_type = ty := by
  unfold Ledger.get_tx_amount_type Ledger.get_transaction at h
  cases hlook : lookupM l.transaction_table id with
  | none => simp [hlook] at h
  | some t =>
    simp only [hlook] at h
    cases hA : t.amount with
    | none => simp [hA] at h
    | some b =>
      simp only [hA, Except.ok.injEq, Prod.mk.injEq] at h
      exact ⟨t, rfl, by rw [hA, h.1], h.2⟩

theorem apply_deposit_snd_ne (l : Ledger) (t : Transaction) :
    (l.apply_deposit t).2 ≠ some (.clientErr .IncorrectSign) := by
  simp only [Ledger.apply_deposit]
  cases hg : (l.init_client t.client).get_client t.client with
  | error e => simp [hg]
  | ok c =>
    cases hA : t.amount with
    | none => simp [hg, hA]
    | some a =>
      cases hd : c.deposit a with
      | error e =>
        have hne := Client.deposit_ne_incorrectSign c a
        simp only [hg, hA, hd, ne_eq, Option.some.injEq, AppErr.clientErr.injEq]
        intro h2
        exact hne (by rw [hd, h2])
      | ok c1 => simp [hg, hA, hd]

theorem apply_withdrawal_snd_ne (l : Ledger) (t : Transaction) :
    (l.apply_withdrawal t).2 ≠ some (.clientErr .IncorrectSign) := by
  simp only [Ledger.apply_withdrawal]
  cases hg : l.get_client t.client with
  | error e => simp [hg]
  | ok c =>
    cases hA : t.amount with
    | none => simp [hg, hA]
    | some a =>
      cases hd : c.deposit (-a) with
      | error e =>
        have hne := Client.deposit_ne_incorrectSign c (-a)
        simp only [hg, hA, hd, ne_eq, Option.some.injEq, AppErr.clientErr.injEq]
        intro h2
        exact hne (by rw [hd, h2])
      | ok c1 => simp [hg, hA, hd]

theorem apply_dispute_snd_ne (l : Ledger) (t : Transaction) :
    (l.apply_dispute t).2 ≠ some (.clientErr .IncorrectSign) := by
  simp only [Ledger.apply_dispute]
  cases hlook : lookupM l.transaction_table t.tx with
  | none => simp [hlook]
  | some ref_tx =>
    by_cases hty : ref_tx.tx_type = .deposit
    · cases hA : ref_tx.amount with
      | none => simp [hlook, hty, hA]
      | some a =>
        cases hg : l.get_client t.client with
        | error e => simp [hlook, hty, hA, hg]
        | ok c =>
          cases hh : c.hold a with
          | error e =>
            have hne := Client.hold_ne_incorrectSign c a
            simp only [hlook, hty, hA, hg, hh, if_true, ne_eq, Option.some.injEq,
              AppErr.clientErr.injEq]
            intro h2
            exact hne (by rw [hh, h2])
          | ok c1 => simp [hlook, hty, hA, hg, hh]
    · simp [hlook, hty]

theorem apply_resolve_snd_ne (l : Ledger) (t : Transaction) :
    (l.apply_resolve t).2 ≠ some (.clientErr .IncorrectSign) := by
  simp only [Ledger.apply_resolve]
  cases hg : l.get_tx_amount_type t.tx with
  | error e => simp [hg]
  | ok p =>
    obtain ⟨a, ty⟩ := p
    by_cases hty : ty = .deposit
    · cases hc : l.get_client t.client with
      | error e => simp [hg, hty, hc]
      | ok c =>
        cases hh : c.hold (-a) with
        | error e =>
          have hne := Client.hold_ne_incorrectSign c (-a)
          simp only [hg, hty, hc, hh, if_true, ne_eq, Option.some.injEq,
            AppErr.clientErr.injEq]
          intro h2
          exact hne (by rw [hh, h2])
        | ok c1 => simp [hg, hty, hc, hh]
    · simp [hg, hty]

theorem apply_chargeback_snd_ne (l : Ledger) (t : Transaction)
    (hinv : depositAmountsNonneg l) :
    (l.apply_chargeback t).2 ≠ some (.clientErr .IncorrectSign) := by
  simp only [Ledger.apply_chargeback]
  cases hg : l.get_tx_amount_type t.tx with
  | error e => simp [hg]
  | ok p =>
    obtain ⟨a, ty⟩ := p
    by_cases hty : ty = .deposit
    · cases hc : l.get_client t.client with
      | error e => simp [hg, hty, hc]
      | ok c =>
        obtain ⟨t', hlook, hamt, htyp⟩ := get_tx_amount_type_ok l t.tx a ty hg
        have ha : 0 ≤ a := hinv t.tx t' hlook (by rw [htyp, hty]) a hamt
        cases hcb : c.chargeback a with
        | error e =>
          have hne := Client.chargeback_nonneg_ne_incorrectSign c a ha
          simp only [hg, hty, hc, hcb, if_true, ne_eq, Option.some.injEq,
            AppErr.clientErr.injEq]
          intro h2
          exact hne (by rw [hcb, h2])
        | ok c1 => simp [hg, hty, hc, hcb]
    · simp [hg, hty]

theorem histInv_of_table_eq {l l2 : Ledger}
    (h : l2.transaction_table = l.transaction_table) (hinv : histInv l) : histInv l2 := by
  intro id t hlook
  rw [h] at hlook
  exact hinv id t hlook

theorem histInv_of_insert {l l2 : Ledger} (t : Transaction)
    (hk : t.tx_type = .deposit ∨ t.tx_type = .withdrawal) (hs : t.amount.isSome)
    (h : l2.transaction_table = insertM l.transaction_table t.tx t)
    (hinv : histInv l) : histInv l2 := by
  intro id t' hlook
  rw [h] at hlook
  rcases lookupM_insertM_cases _ _ _ _ _ hlook with ⟨hid, hv⟩ | h2
  · subst hv
    exact ⟨hk, hs⟩
  · exact hinv id t' h2

theorem histInv_apply (l : Ledger) (t : Transaction) (hinv : histInv l) :
    histInv (l.apply_transaction t).1 := by
  unfold Ledger.apply_transaction
  cases ht : t.tx_type with
  | deposit =>
    rcases apply_deposit_transaction_table l t with he | ⟨a, hA, he⟩
    · exact histInv_of_table_eq he hinv
    · exact histInv_of_insert t (Or.inl ht) (by simp [hA]) he hinv
  | withdrawal =>
    rcases apply_withdrawal_transaction_table l t with he | ⟨a, hA, he⟩
    · exact histInv_of_table_eq he hinv
    · exact histInv_of_insert t (Or.inr ht) (by simp [hA]) he hinv
  | dispute => exact histInv_of_table_eq (apply_dispute_transaction_table l t) hinv
  | resolve => exact histInv_of_table_eq (apply_resolve_transaction_table l t) hinv
  | chargeback => exact histInv_of_table_eq (apply_chargeback_transaction_table l t) hinv

theorem nonneg_of_table_eq {l l2 : Ledger}
    (h : l2.transaction_table = l.transaction_table) (hinv : depositAmountsNonneg l) :
    depositAmountsNonneg l2 := by
  intro id t hlook
  rw [h] at hlook
  exact hinv id t hlook

theorem nonneg_of_insert {l l2 : Ledger} (t : Transaction) (hp : depositNonneg t)
    (h : l2.transaction_table = insertM l.transaction_table t.tx t)
    (hinv : depositAmountsNonneg l) : depositAmountsNonneg l2 := by
  intro id t' hlook hty a ha
  rw [h] at hlook
  rcases lookupM_insertM_cases _ _ _ _ _ hlook with ⟨hid, hv⟩ | h2
  · subst hv
    exact hp hty a ha
  · exact hinv id t' h2 hty a ha

theorem depositAmountsNonneg_apply (l : Ledger) (t : Transaction)
    (hinv : depositAmountsNonneg l) (hp : depositNonneg t) :
    depositAmountsNonneg (l.apply_transaction t).1 := by
  unfold Ledger.apply_transaction
  cases ht : t.tx_type with
  | deposit =>
    rcases apply_deposit_transaction_table l t with he | ⟨a, hA, he⟩
    · exact nonneg_of_table_eq he hinv
    · exact nonneg_of_insert t hp he hinv
  | withdrawal =>
    rcases apply_withdrawal_transaction_table l t with he | ⟨a, hA, he⟩
    · exact nonneg_of_table_eq he hinv
    · exact nonneg_of_insert t hp he hinv
  | dispute => exact nonneg_of_table_eq (apply_dispute_transaction_table l t) hinv
  | resolve => exact nonneg_of_table_eq (apply_resolve_transaction_table l t) hinv
  | chargeback => exact nonneg_of_table_eq (apply_chargeback_transaction_table l t) hinv

theorem apply_transaction_snd_ne (l : Ledger) (t : Transaction)
    (hinv : depositAmountsNonneg l) :
    (l.apply_transaction t).2 ≠ some (.clientErr .IncorrectSign) := by
  unfold Ledger.apply_transaction
  cases ht : t.tx_type with
  | deposit => exact apply_deposit_snd_ne l t
  | withdrawal => exact apply_withdrawal_snd_ne l t
  | dispute => exact apply_dispute_snd_ne l t
  | resolve => exact apply_resolve_snd_ne l t
  | chargeback => exact apply_chargeback_snd_ne l t hinv

theorem depositAmountsNonneg_empty : depositAmountsNonneg Ledger.empty := by
  intro id t h
  simp [Ledger.empty, lookupM] at h

theorem histInv_empty : histInv Ledger.empty := by
  intro id t h
  simp [Ledger.empty, lookupM] at h

/-- Claim C2 (theorem, amended): for every run from the empty ledger in which
each deposit record carries a non-negative amount, `apply_transaction` never
returns the invalid-sign error: the state machine only ever calls
`Client::chargeback` with a historical deposit's amount, which is then
non-negative. -/
theorem c2_no_invalid_sign_amended (txs : List Transaction)
    (hpre : ∀ t ∈ txs, depositNonneg t) :
    Ledger.apply_all Ledger.empty txs ≠ .error (.clientErr .IncorrectSign) := by
  have hgen : ∀ (ts : List Transaction) (l : Ledger), depositAmountsNonneg l →
      (∀ t ∈ ts, depositNonneg t) →
      l.apply_all ts ≠ .error (.clientErr .IncorrectSign) := by
    intro ts
    induction ts with
    | nil =>
      intro l _ _
      simp [Ledger.apply_all]
    | cons t ts ih =>
      intro l hinv hp
      unfold Ledger.apply_all
      cases hap : l.apply_transaction t with
      | mk l1 r =>
        cases r with
        | none =>
          have hinv1 : depositAmountsNonneg l1 := by
            have h2 := depositAmountsNonneg_apply l t hinv (hp t (by simp))
            rwa [hap] at h2
          exact ih l1 hinv1 (fun t' ht' => hp t' (by simp [ht']))
        | some e =>
          have hne := apply_transaction_snd_ne l t hinv
          rw [hap] at hne
          intro hcontra
          injection hcontra with h2
          exact hne (by rw [h2])
  exact hgen txs Ledger.empty depositAmountsNonneg_empty hpre

/-- Claim C2 (witness): the single-deposit run deposit(client 1, tx 1, 10)
satisfies the non-negative-deposit discipline and never yields the
invalid-sign error. -/
theorem c2_no_invalid_sign_amended_witness :
    Ledger.apply_all Ledger.empty [⟨.deposit, 1, some 10, 1⟩]
      ≠ .error (.clientErr .IncorrectSign) := by
  refine c2_no_invalid_sign_amended [⟨.deposit, 1, some 10, 1⟩] ?_
  intro t ht
  simp only [List.mem_singleton] at ht
  subst ht
  intro _ a ha
  simp only [Option.some.injEq] at ha
  rw [← ha]
  norm_num

/-- Claim C10 (theorem): in every ledger reachable from the empty state by a
successful run, every record stored in the history table is a deposit or a
withdrawal carrying a present amount; dispute, resolve and chargeback records
are never stored. -/
theorem c10_history_kinds_invariant (txs : List Transaction) (l : Ledger)
    (h : Ledger.apply_all Ledger.empty txs = .ok l) : histInv l := by
  have hgen : ∀ (ts : List Transaction) (l0 : Ledger), histInv l0 →
      ∀ l2, l0.apply_all ts = .ok l2 → histInv l2 := by
    intro ts
    induction ts with
    | nil =>
      intro l0 h0 l2 h2
      unfold Ledger.apply_all at h2
      injection h2 with h3
      rwa [← h3]
    | cons t ts ih =>
      intro l0 h0 l2 h2
      unfold Ledger.apply_all at h2
      cases hap : l0.apply_transaction t with
      | mk l1 r =>
        rw [hap] at h2
        cases r with
        | none =>
          have h1 : histInv l1 := by
            have h3 := histInv_apply l0 t h0
            rwa [hap] at h3
          exact ih l1 h1 l2 h2
        | some e => exact absurd h2 (by simp)
  exact hgen txs Ledger.empty histInv_empty l h

/-- Claim C10 (witness): after the single-deposit run producing `c10ledger`,
the stored record under tx id 1 is a deposit with a present amount. -/
theorem c10_history_kinds_invariant_witness :
    (d1.tx_type = .deposit ∨ d1.tx_type = .withdrawal) ∧ d1.amount.isSome := by
  have hrun : Ledger.apply_all Ledger.empty [d1] = .ok c10ledger := by
    have h1 : Ledger.empty.apply_transaction d1 = (c10ledger, none) := by
      norm_num [Ledger.apply_transaction, Ledger.apply_deposit, Ledger.empty,
        Ledger.init_client, Ledger.get_client, Client.from_id, Client.deposit,
        lookupM, insertM, removeKey, d1, c10ledger]
    rw [apply_all_cons_ok _ _ _ _ h1]
    rfl
  exact c10_history_kinds_invariant [d1] c10ledger hrun 1 d1
    (by norm_num [c10ledger, lookupM, d1])
